import Mathlib

/-!
Formal model of the arcade-shooter simulation core in
src/components/game/GameCanvas.tsx: the entity data model, the per-tick
update pipeline (player movement, firing, bullet/enemy integration and
culling, wave spawning, the two collision passes, particle lifecycle) and
the session state (score, lives, running/gameOver flags).

Numbers are modelled as real numbers.  The global `Math.random()` source is
modelled as an oracle `rng : ℕ → ℝ` together with a cursor `rngIdx`: each
call of the source reads the next oracle value, mirroring the call order of
the code.  React state setters (`setScore`, `setLives`, ...) are modelled as
sequential field updates of the session state.
-/

namespace Phobia

noncomputable section

/-- 2D vector, from `interface Vec2`. -/
@[ext] structure Vec2 where
  x : ℝ
  y : ℝ

/-- The player entity, from `interface Player extends Entity`. -/
@[ext] structure Player where
  pos : Vec2
  vel : Vec2
  radius : ℝ
  alive : Bool
  speed : ℝ
  cooldown : ℝ

/-- A bullet, from `interface Bullet extends Entity`. -/
@[ext] structure Bullet where
  pos : Vec2
  vel : Vec2
  radius : ℝ
  alive : Bool
  fromPlayer : Bool

/-- An enemy, from `interface Enemy extends Entity`. -/
@[ext] structure Enemy where
  pos : Vec2
  vel : Vec2
  radius : ℝ
  alive : Bool
  hp : ℤ
  pattern : ℤ
  t : ℝ

/-- A cosmetic particle, from `interface Particle`. -/
@[ext] structure Particle where
  pos : Vec2
  vel : Vec2
  life : ℝ
  color : String

/-- The whole simulation state: the React state hooks (`running`, `paused`,
`gameOver`, `score`, `lives`) and the mutable refs (`playerRef`,
`bulletsRef`, `enemiesRef`, `particlesRef`, `spawnTimerRef`, `timeRef`),
plus the random oracle. -/
structure GameState where
  running : Bool
  paused : Bool
  gameOver : Bool
  score : ℤ
  lives : ℤ
  player : Option Player
  bullets : List Bullet
  enemies : List Enemy
  particles : List Particle
  spawnTimer : ℝ
  time : ℝ
  rng : ℕ → ℝ
  rngIdx : ℕ

/-- External input signals for one tick: held movement keys, the fire
signal (`firingRef` / space key) and the aim point (`aimRef`). -/
structure Inputs where
  left : Bool
  right : Bool
  up : Bool
  down : Bool
  firing : Bool
  aim : Vec2

/-- `const INTERNAL_WIDTH = 480`. -/
def INTERNAL_WIDTH : ℝ := 480

/-- `const INTERNAL_HEIGHT = 720`. -/
def INTERNAL_HEIGHT : ℝ := 720

/-- `const clamp = (v, min, max) => Math.max(min, Math.min(max, v))`. -/
def clamp (v lo hi : ℝ) : ℝ := max lo (min hi v)

/-- `const dist2 = (a, b) => dx*dx + dy*dy` with `dx = a.x-b.x`, `dy = a.y-b.y`. -/
def dist2 (a b : Vec2) : ℝ :=
  (a.x - b.x) * (a.x - b.x) + (a.y - b.y) * (a.y - b.y)

/-- `Math.hypot(x, y)`. -/
def hypot (x y : ℝ) : ℝ := Real.sqrt (x * x + y * y)

/-- The JS idiom `l || 1`: the value, or 1 when it is zero. -/
def jsOr1 (l : ℝ) : ℝ := if l = 0 then 1 else l

/-- X-axis intent from held keys: `(right ? 1 : 0) - (left ? 1 : 0)` (line 248). -/
def vxOf (inp : Inputs) : ℝ := (if inp.right then 1 else 0) - (if inp.left then 1 else 0)

/-- Y-axis intent from held keys: `(down ? 1 : 0) - (up ? 1 : 0)` (line 249). -/
def vyOf (inp : Inputs) : ℝ := (if inp.down then 1 else 0) - (if inp.up then 1 else 0)

/-- Player movement block of `update` (GameCanvas.tsx lines 243-261):
velocity from held keys, normalised via `Math.hypot(...) || 1`, position
integrated by `speed * dt` and clamped to `[15, W-15] × [15, H-15]`. -/
def movePlayer (p : Player) (inp : Inputs) (dt : ℝ) : Player :=
  let vx := vxOf inp
  let vy := vyOf inp
  let len := jsOr1 (hypot vx vy)
  { p with
    vel := ⟨vx, vy⟩
    pos := ⟨clamp (p.pos.x + vx / len * p.speed * dt) 15 (INTERNAL_WIDTH - 15),
            clamp (p.pos.y + vy / len * p.speed * dt) 15 (INTERNAL_HEIGHT - 15)⟩ }

/-- Firing block of `update` (lines 263-282): the cooldown timer drops by
`dt`; when the fire signal is held and the cooldown is ≤ 0, one bullet is
pushed, aimed from the player to the aim point, offset by 15 from the
player centre, with speed 400, and the cooldown resets to 0.08. -/
def fireStep (p : Player) (inp : Inputs) (dt : ℝ) (bullets : List Bullet) :
    Player × List Bullet :=
  let p1 : Player := { p with cooldown := p.cooldown - dt }
  if inp.firing ∧ p1.cooldown ≤ 0 then
    let ax := inp.aim.x - p1.pos.x
    let ay := inp.aim.y - p1.pos.y
    let L := jsOr1 (hypot ax ay)
    let dirx := ax / L
    let diry := ay / L
    let b : Bullet :=
      { pos := ⟨p1.pos.x + dirx * 15, p1.pos.y + diry * 15⟩
        vel := ⟨dirx * 400, diry * 400⟩
        radius := 2, alive := true, fromPlayer := true }
    ({ p1 with cooldown := 0.08 }, bullets ++ [b])
  else (p1, bullets)

/-- Bullet integration and boundary culling, per bullet (lines 285-295):
move by `vel * dt`, mark not-alive when outside the field by more than the
10-unit margin. -/
def stepBullet (dt : ℝ) (b : Bullet) : Bullet :=
  let pos : Vec2 := ⟨b.pos.x + b.vel.x * dt, b.pos.y + b.vel.y * dt⟩
  if pos.y < -10 ∨ pos.y > INTERNAL_HEIGHT + 10 ∨
     pos.x < -10 ∨ pos.x > INTERNAL_WIDTH + 10 then
    { b with pos := pos, alive := false }
  else { b with pos := pos }

/-- Bullet phase of `update` (lines 284-296): integrate every bullet, then
`bulletsRef.current = bulletsRef.current.filter(b => b.alive)`. -/
def stepBullets (dt : ℝ) (bs : List Bullet) : List Bullet :=
  (bs.map (stepBullet dt)).filter (fun b => b.alive)

/-- One enemy of a wave, from the loop body of `spawnWave` (lines 386-412):
a uniformly random edge, a random position just outside it, `hp = 1 +
Math.floor(score / 800)`, radius 14, random pattern.  `k` is the rng cursor
at the start of this loop iteration. -/
def spawnEnemy (rng : ℕ → ℝ) (k : ℕ) (score : ℤ) : Enemy :=
  let side := ⌊rng k * 4⌋
  let pos : Vec2 :=
    if side = 0 then ⟨rng (k + 1) * INTERNAL_WIDTH, -25⟩
    else if side = 1 then ⟨INTERNAL_WIDTH + 25, rng (k + 1) * INTERNAL_HEIGHT⟩
    else if side = 2 then ⟨rng (k + 1) * INTERNAL_WIDTH, INTERNAL_HEIGHT + 25⟩
    else ⟨-25, rng (k + 1) * INTERNAL_HEIGHT⟩
  { pos := pos
    vel := ⟨0, 0⟩
    radius := 14
    alive := true
    hp := 1 + ⌊(score : ℝ) / 800⌋
    pattern := ⌊rng (k + 2) * 3⌋
    t := 0 }

/-- `count = 4 + Math.floor(Math.random() * 3) + Math.floor(score / 500)`
(line 385). -/
def waveCount (s : GameState) : ℕ :=
  (4 + ⌊s.rng s.rngIdx * 3⌋ + ⌊(s.score : ℝ) / 500⌋).toNat

/-- The list of enemies one `spawnWave` call pushes; each loop iteration
consumes three rng values after the one used for the count. -/
def waveEnemies (s : GameState) : List Enemy :=
  (List.range (waveCount s)).map fun i => spawnEnemy s.rng (s.rngIdx + 1 + 3 * i) s.score

/-- `spawnWave` (lines 384-413): append one wave to the enemy collection. -/
def spawnWave (s : GameState) : GameState :=
  { s with
    enemies := s.enemies ++ waveEnemies s
    rngIdx := s.rngIdx + 1 + 3 * waveCount s }

/-- `Math.max(0.8, 2.0 - score * 0.001)` (line 302): the spawn timer reset
value. -/
def spawnResetInterval (score : ℤ) : ℝ := max 0.8 (2.0 - (score : ℝ) * 0.001)

/-- Spawn block of `update` (lines 298-303): the spawn timer drops by `dt`;
when it is ≤ 0, a wave is generated and the timer resets to
`spawnResetInterval score`. -/
def spawnStep (dt : ℝ) (s : GameState) : GameState :=
  let timer := s.spawnTimer - dt
  if timer ≤ 0 then { spawnWave s with spawnTimer := spawnResetInterval s.score }
  else { s with spawnTimer := timer }

/-- Seek steering for one enemy (lines 306-316): age by `dt` and move
toward the player at speed `35 + Math.min(80, score * 0.03)`,
direction normalised via `Math.hypot(dx, dy) || 1`. -/
def stepEnemy (p : Player) (score : ℤ) (dt : ℝ) (e : Enemy) : Enemy :=
  let dx := p.pos.x - e.pos.x
  let dy := p.pos.y - e.pos.y
  let l := jsOr1 (hypot dx dy)
  let base := 35 + min 80 ((score : ℝ) * 0.03)
  { e with
    t := e.t + dt
    pos := ⟨e.pos.x + dx / l * base * dt, e.pos.y + dy / l * base * dt⟩ }

/-- Enemy phase of `update` (lines 305-317): steer every enemy, then
`enemiesRef.current = enemiesRef.current.filter(e => e.alive)`. -/
def stepEnemies (p : Player) (score : ℤ) (dt : ℝ) (es : List Enemy) : List Enemy :=
  (es.map (stepEnemy p score dt)).filter (fun e => e.alive)

/-- Colour tag used for the minor hit burst. -/
def accentColor : String := "hsl(var(--accent))"

/-- Colour tag used for the death burst. -/
def primaryColor : String := "hsl(var(--primary))"

/-- Colour tag used for the player-damage burst. -/
def destructiveColor : String := "hsl(var(--destructive))"

/-- The 16 particles one `emitExplosion` call pushes (lines 371-382); each
loop iteration consumes three rng values (angle jitter, speed, lifetime). -/
def emitParticles (rng : ℕ → ℝ) (k : ℕ) (x y : ℝ) (color : String) : List Particle :=
  (List.range 16).map fun i =>
    let a := Real.pi * 2 * i / 16 + rng (k + 3 * i) * 0.3
    let sp := 60 + rng (k + 3 * i + 1) * 80
    { pos := ⟨x, y⟩
      vel := ⟨Real.cos a * sp, Real.sin a * sp⟩
      life := 0.4 + rng (k + 3 * i + 2) * 0.3
      color := color }

/-- `emitExplosion` (lines 371-382) as a state transformer: append one
16-particle burst and advance the rng cursor by the 48 values consumed. -/
def emitExplosion (s : GameState) (x y : ℝ) (color : String) : GameState :=
  { s with
    particles := s.particles ++ emitParticles s.rng s.rngIdx x y color
    rngIdx := s.rngIdx + 48 }

/-- `hitPlayer` (lines 358-369): emit a damage burst at the player, then
`setLives(l => l - 1)`; when `lives - 1 <= 0` the player is marked
not-alive and the session goes to game over (`running = false`), otherwise
the player is repositioned to the fixed start position. -/
def hitPlayer (s : GameState) (p : Player) : GameState × Player :=
  let s1 := emitExplosion s p.pos.x p.pos.y destructiveColor
  let s2 := { s1 with lives := s1.lives - 1 }
  if s.lives - 1 ≤ 0 then
    ({ s2 with gameOver := true, running := false }, { p with alive := false })
  else
    (s2, { p with pos := ⟨INTERNAL_WIDTH / 2, INTERNAL_HEIGHT / 2⟩ })

/-- Inner enemy scan of the bullet-vs-enemy pass (lines 322-335): walk the
enemy collection in order; on the first enemy whose centre is within
`(b.radius + e.radius)` of the bullet (squared-distance test, inclusive),
decrement its hp and mark it dead when the hp reaches ≤ 0.  Returns the
updated collection and, when a hit happened, the hit position together with
whether the hp reached ≤ 0. -/
def bulletScan (b : Bullet) : List Enemy → List Enemy × Option (Vec2 × Bool)
  | [] => ([], none)
  | e :: rest =>
    if dist2 b.pos e.pos ≤ (b.radius + e.radius) * (b.radius + e.radius) then
      let hp1 := e.hp - 1
      if hp1 ≤ 0 then ({ e with hp := hp1, alive := false } :: rest, some (e.pos, true))
      else ({ e with hp := hp1 } :: rest, some (e.pos, false))
    else
      let r := bulletScan b rest
      (e :: r.1, r.2)

/-- Session-state effect of one bullet hit in the bullet-vs-enemy pass
(lines 327-332): always a minor burst at the enemy position; when the hp
reached ≤ 0 additionally `setScore(s => s + 100)` and a death burst. -/
def hitState (s : GameState) (hit : Vec2 × Bool) : GameState :=
  let s1 := emitExplosion s hit.1.x hit.1.y accentColor
  if hit.2 then
    emitExplosion { s1 with score := s1.score + 100 } hit.1.x hit.1.y primaryColor
  else s1

/-- Bullet-vs-enemy pass (lines 319-336, the `outer:` loop): for each
player-fired bullet scan the enemies; on a hit the bullet is consumed
(marked not-alive and the scan for that bullet stops), and the session
state takes the burst/score effect of `hitState`. -/
def passBullets : List Bullet → List Enemy → GameState →
    List Bullet × List Enemy × GameState
  | [], es, s => ([], es, s)
  | b :: bs, es, s =>
    if b.fromPlayer then
      let scan := bulletScan b es
      match scan.2 with
      | some hit =>
        let r := passBullets bs scan.1 (hitState s hit)
        ({ b with alive := false } :: r.1, r.2.1, r.2.2)
      | none =>
        let r := passBullets bs scan.1 s
        (b :: r.1, r.2.1, r.2.2)
    else
      let r := passBullets bs es s
      (b :: r.1, r.2.1, r.2.2)

/-- Enemy-vs-player pass (lines 338-347): walk the enemy collection; stop
when the player is not alive; on the first enemy overlapping the player
(squared-distance test, inclusive) mark that enemy not-alive, invoke
`hitPlayer` and stop. -/
def passPlayer : GameState → Player → List Enemy → GameState × Player × List Enemy
  | s, p, [] => (s, p, [])
  | s, p, e :: rest =>
    if ¬ p.alive then (s, p, e :: rest)
    else if dist2 p.pos e.pos ≤ (p.radius + e.radius) * (p.radius + e.radius) then
      let r := hitPlayer s p
      (r.1, r.2, { e with alive := false } :: rest)
    else
      let r := passPlayer s p rest
      (r.1, r.2.1, e :: r.2.2)

/-- Particle integration (lines 350-354): lifetime drops by `dt`, position
moves by `vel * dt`. -/
def stepParticle (dt : ℝ) (q : Particle) : Particle :=
  { q with
    life := q.life - dt
    pos := ⟨q.pos.x + q.vel.x * dt, q.pos.y + q.vel.y * dt⟩ }

/-- Particle phase of `update` (lines 349-355): integrate every particle,
then `particlesRef.current = particlesRef.current.filter(p => p.life > 0)`. -/
def stepParticles (dt : ℝ) (ps : List Particle) : List Particle :=
  (ps.map (stepParticle dt)).filter fun q => decide (q.life > 0)

/-- Body of one simulation tick once the player null-check passed (lines
242-355): in order, player movement, firing, bullet integration and
culling, the spawn timer, enemy steering and culling, the bullet-vs-enemy
pass, the enemy-vs-player pass and the particle phase. -/
def updateBody (inp : Inputs) (dt : ℝ) (s : GameState) (p0 : Player) : GameState :=
  let p1 := movePlayer p0 inp dt
  let fr := fireStep p1 inp dt s.bullets
  let p2 := fr.1
  let bs1 := stepBullets dt fr.2
  let s1 := spawnStep dt { s with player := some p2, bullets := bs1 }
  let es1 := stepEnemies p2 s1.score dt s1.enemies
  let pb := passBullets bs1 es1 s1
  let pp := passPlayer pb.2.2 p2 pb.2.1
  { pp.1 with
    player := some pp.2.1
    bullets := pb.1
    enemies := pp.2.2
    particles := stepParticles dt pp.1.particles }

/-- One full simulation tick, `update(dt)` (lines 237-356): advance the
global clock; when no player exists return; otherwise run the tick body. -/
def update (inp : Inputs) (dt : ℝ) (s0 : GameState) : GameState :=
  let s := { s0 with time := s0.time + dt }
  match s.player with
  | none => s
  | some p0 => updateBody inp dt s p0

/-- The freshly created player of `initGame` (lines 138-145). -/
def initPlayer : Player :=
  { pos := ⟨INTERNAL_WIDTH / 2, INTERNAL_HEIGHT / 2⟩
    vel := ⟨0, 0⟩
    radius := 12
    alive := true
    speed := 180
    cooldown := 0 }

/-- `initGame` (lines 132-152), the start/restart command: reset score,
lives, flags, recreate the player, empty every entity collection, seed the
spawn timer to 0 and set the session running. -/
def initGame (s : GameState) : GameState :=
  { s with
    score := 0
    lives := 3
    gameOver := false
    paused := false
    player := some initPlayer
    bullets := []
    enemies := []
    particles := []
    spawnTimer := 0
    running := true }

/-- `dt` computation of the frame loop (line 220):
`Math.min(0.033, (t - last) / 1000)`. -/
def loopDt (t last : ℝ) : ℝ := min 0.033 ((t - last) / 1000)

/-- The input record with no key held, no fire signal and a fixed aim. -/
def inp0 : Inputs :=
  { left := false
    right := false
    up := false
    down := false
    firing := false
    aim := ⟨240, 240⟩ }

/-- Input with diagonal movement intent (1,1): right and down held. -/
def inpDiag : Inputs :=
  { left := false
    right := true
    up := false
    down := true
    firing := false
    aim := ⟨240, 240⟩ }

/-- Input with axial movement intent (1,0): only right held. -/
def inpAxial : Inputs :=
  { left := false
    right := true
    up := false
    down := false
    firing := false
    aim := ⟨240, 240⟩ }

/-- Number of hit events of the bullet-vs-enemy pass that drive an enemy's
hp to ≤ 0; the pass adds 100 to the score for each such event (also when
the enemy was already dead, since the scan never re-checks `alive`). -/
def passKillCount : List Bullet → List Enemy → ℕ
  | [], _ => 0
  | b :: bs, es =>
    if b.fromPlayer then
      match (bulletScan b es).2 with
      | some hit => (if hit.2 then 1 else 0) + passKillCount bs (bulletScan b es).1
      | none => passKillCount bs (bulletScan b es).1
    else passKillCount bs es

/-- Number of bullets spawned over a sequence of tick deltas with the fire
signal held throughout, following the cooldown discipline of `fireStep`: a
shot happens exactly when the cooldown, decremented by the tick delta, is
≤ 0, after which the cooldown resets to 0.08. -/
def shotsFired (c : ℝ) : List ℝ → ℕ
  | [] => 0
  | d :: ds =>
    (if c - d ≤ 0 then 1 else 0) + shotsFired (if c - d ≤ 0 then 0.08 else c - d) ds

/-- The clamp box for the player position: `[15, W-15] × [15, H-15]`. -/
def inBox (v : Vec2) : Prop :=
  15 ≤ v.x ∧ v.x ≤ INTERNAL_WIDTH - 15 ∧ 15 ≤ v.y ∧ v.y ≤ INTERNAL_HEIGHT - 15

/-- The optional player, when present, sits inside the clamp box. -/
def playerInBox : Option Player → Prop
  | none => True
  | some p => inBox p.pos

/-- An alive player at rest at a given position, with the constants
`initGame` uses. -/
def playerAt (x y : ℝ) : Player :=
  { pos := ⟨x, y⟩
    vel := ⟨0, 0⟩
    radius := 12
    alive := true
    speed := 180
    cooldown := 0 }

/-- An alive player-fired bullet at rest at a given position, with the
radius `fireStep` uses. -/
def bulletAt (x y : ℝ) : Bullet :=
  { pos := ⟨x, y⟩
    vel := ⟨0, 0⟩
    radius := 2
    alive := true
    fromPlayer := true }

/-- An alive enemy at rest at a given position with given hp, with the
radius `spawnWave` uses. -/
def enemyAt (x y : ℝ) (hp : ℤ) : Enemy :=
  { pos := ⟨x, y⟩
    vel := ⟨0, 0⟩
    radius := 14
    alive := true
    hp := hp
    pattern := 0
    t := 0 }

/-- A running session state with the player at the start position, the
given bullet and enemy collections, spawn timer 1 and the zero rng oracle. -/
def baseState (bs : List Bullet) (es : List Enemy) : GameState :=
  { running := true
    paused := false
    gameOver := false
    score := 0
    lives := 3
    player := some (playerAt 240 360)
    bullets := bs
    enemies := es
    particles := []
    spawnTimer := 1
    time := 0
    rng := fun _ => 0
    rngIdx := 0 }

/-! ### Helper lemmas -/

theorem le_clamp (v lo hi : ℝ) : lo ≤ clamp v lo hi := le_max_left _ _

theorem clamp_le (v lo hi : ℝ) (h : lo ≤ hi) : clamp v lo hi ≤ hi := by
  simp only [clamp, max_le_iff]
  exact ⟨h, min_le_left _ _⟩

theorem clamp_eq_self (v lo hi : ℝ) (h1 : lo ≤ v) (h2 : v ≤ hi) : clamp v lo hi = v := by
  simp only [clamp, min_eq_right h2, max_eq_right h1]

@[simp] theorem emitExplosion_score (s : GameState) (x y : ℝ) (c : String) :
    (emitExplosion s x y c).score = s.score := rfl

@[simp] theorem emitExplosion_lives (s : GameState) (x y : ℝ) (c : String) :
    (emitExplosion s x y c).lives = s.lives := rfl

@[simp] theorem emitExplosion_gameOver (s : GameState) (x y : ℝ) (c : String) :
    (emitExplosion s x y c).gameOver = s.gameOver := rfl

@[simp] theorem emitExplosion_running (s : GameState) (x y : ℝ) (c : String) :
    (emitExplosion s x y c).running = s.running := rfl

@[simp] theorem emitExplosion_player (s : GameState) (x y : ℝ) (c : String) :
    (emitExplosion s x y c).player = s.player := rfl

@[simp] theorem emitExplosion_spawnTimer (s : GameState) (x y : ℝ) (c : String) :
    (emitExplosion s x y c).spawnTimer = s.spawnTimer := rfl

@[simp] theorem emitExplosion_time (s : GameState) (x y : ℝ) (c : String) :
    (emitExplosion s x y c).time = s.time := rfl

@[simp] theorem emitExplosion_bullets (s : GameState) (x y : ℝ) (c : String) :
    (emitExplosion s x y c).bullets = s.bullets := rfl

@[simp] theorem emitExplosion_enemies (s : GameState) (x y : ℝ) (c : String) :
    (emitExplosion s x y c).enemies = s.enemies := rfl

theorem hitPlayer_fst_lives (s : GameState) (p : Player) :
    (hitPlayer s p).1.lives = s.lives - 1 := by
  unfold hitPlayer
  split <;> rfl

@[simp] theorem hitPlayer_fst_score (s : GameState) (p : Player) :
    (hitPlayer s p).1.score = s.score := by
  unfold hitPlayer
  split <;> rfl

@[simp] theorem hitPlayer_fst_spawnTimer (s : GameState) (p : Player) :
    (hitPlayer s p).1.spawnTimer = s.spawnTimer := by
  unfold hitPlayer
  split <;> rfl

@[simp] theorem hitPlayer_fst_time (s : GameState) (p : Player) :
    (hitPlayer s p).1.time = s.time := by
  unfold hitPlayer
  split <;> rfl

@[simp] theorem hitPlayer_snd_cooldown (s : GameState) (p : Player) :
    (hitPlayer s p).2.cooldown = p.cooldown := by
  unfold hitPlayer
  split <;> rfl

theorem hitPlayer_gameOver_branch (s : GameState) (p : Player) (h : s.lives - 1 ≤ 0) :
    (hitPlayer s p).1.gameOver = true ∧ (hitPlayer s p).1.running = false ∧
    (hitPlayer s p).2.alive = false ∧ (hitPlayer s p).2.pos = p.pos := by
  unfold hitPlayer
  rw [if_pos h]
  exact ⟨rfl, rfl, rfl, rfl⟩

theorem hitPlayer_survive_branch (s : GameState) (p : Player) (h : ¬ s.lives - 1 ≤ 0) :
    (hitPlayer s p).1.gameOver = s.gameOver ∧ (hitPlayer s p).1.running = s.running ∧
    (hitPlayer s p).2.alive = p.alive ∧
    (hitPlayer s p).2.pos = ⟨INTERNAL_WIDTH / 2, INTERNAL_HEIGHT / 2⟩ := by
  unfold hitPlayer
  rw [if_neg h]
  exact ⟨rfl, rfl, rfl, rfl⟩

theorem fireStep_notFiring (p : Player) (inp : Inputs) (dt : ℝ) (bs : List Bullet)
    (h : inp.firing = false) :
    fireStep p inp dt bs = ({ p with cooldown := p.cooldown - dt }, bs) := by
  unfold fireStep
  rw [if_neg]
  simp [h]

theorem spawnStep_noSpawn (dt : ℝ) (s : GameState) (h : 0 < s.spawnTimer - dt) :
    spawnStep dt s = { s with spawnTimer := s.spawnTimer - dt } := by
  unfold spawnStep
  rw [if_neg (by linarith)]

theorem stepEnemy_zero (p : Player) (score : ℤ) (e : Enemy) : stepEnemy p score 0 e = e := by
  unfold stepEnemy
  ext <;> simp

theorem stepEnemies_zero_alive (p : Player) (score : ℤ) (e : Enemy) (h : e.alive = true) :
    stepEnemies p score 0 [e] = [e] := by
  simp [stepEnemies, stepEnemy_zero, h]

theorem stepBullet_zero (b : Bullet)
    (h1 : -10 ≤ b.pos.y) (h2 : b.pos.y ≤ INTERNAL_HEIGHT + 10)
    (h3 : -10 ≤ b.pos.x) (h4 : b.pos.x ≤ INTERNAL_WIDTH + 10) :
    stepBullet 0 b = b := by
  unfold stepBullet
  rw [if_neg]
  · ext <;> simp
  · push_neg
    refine ⟨by simpa using h1, by simpa using h2, by simpa using h3, by simpa using h4⟩

theorem bulletScan_kill (b : Bullet) (e : Enemy) (rest : List Enemy)
    (hhit : dist2 b.pos e.pos ≤ (b.radius + e.radius) * (b.radius + e.radius))
    (hhp : e.hp - 1 ≤ 0) :
    bulletScan b (e :: rest) =
      ({ e with hp := e.hp - 1, alive := false } :: rest, some (e.pos, true)) := by
  simp only [bulletScan]
  rw [if_pos hhit, if_pos hhp]

theorem bulletScan_wound (b : Bullet) (e : Enemy) (rest : List Enemy)
    (hhit : dist2 b.pos e.pos ≤ (b.radius + e.radius) * (b.radius + e.radius))
    (hhp : ¬ e.hp - 1 ≤ 0) :
    bulletScan b (e :: rest) = ({ e with hp := e.hp - 1 } :: rest, some (e.pos, false)) := by
  simp only [bulletScan]
  rw [if_pos hhit, if_neg hhp]

theorem bulletScan_miss (b : Bullet) (e : Enemy) (rest : List Enemy)
    (h : ¬ dist2 b.pos e.pos ≤ (b.radius + e.radius) * (b.radius + e.radius)) :
    bulletScan b (e :: rest) = (e :: (bulletScan b rest).1, (bulletScan b rest).2) := by
  simp only [bulletScan]
  rw [if_neg h]

theorem passBullets_cons_hit (b : Bullet) (bs : List Bullet) (es : List Enemy)
    (s : GameState) (hit : Vec2 × Bool) (hb : b.fromPlayer = true)
    (hscan : (bulletScan b es).2 = some hit) :
    passBullets (b :: bs) es s =
      ({ b with alive := false } ::
         (passBullets bs (bulletScan b es).1 (hitState s hit)).1,
       (passBullets bs (bulletScan b es).1 (hitState s hit)).2.1,
       (passBullets bs (bulletScan b es).1 (hitState s hit)).2.2) := by
  simp only [passBullets]
  rw [if_pos hb, hscan]

theorem passBullets_cons_miss (b : Bullet) (bs : List Bullet) (es : List Enemy)
    (s : GameState) (hb : b.fromPlayer = true) (hscan : (bulletScan b es).2 = none) :
    passBullets (b :: bs) es s =
      (b :: (passBullets bs (bulletScan b es).1 s).1,
       (passBullets bs (bulletScan b es).1 s).2.1,
       (passBullets bs (bulletScan b es).1 s).2.2) := by
  simp only [passBullets]
  rw [if_pos hb, hscan]

theorem passPlayer_nil (s : GameState) (p : Player) : passPlayer s p [] = (s, p, []) := rfl

theorem passPlayer_hit (s : GameState) (p : Player) (e : Enemy) (rest : List Enemy)
    (ha : p.alive = true)
    (h : dist2 p.pos e.pos ≤ (p.radius + e.radius) * (p.radius + e.radius)) :
    passPlayer s p (e :: rest) =
      ((hitPlayer s p).1, (hitPlayer s p).2, { e with alive := false } :: rest) := by
  simp only [passPlayer]
  rw [if_neg (by simp [ha]), if_pos h]

theorem passPlayer_miss (s : GameState) (p : Player) (e : Enemy) (rest : List Enemy)
    (ha : p.alive = true)
    (h : ¬ dist2 p.pos e.pos ≤ (p.radius + e.radius) * (p.radius + e.radius)) :
    passPlayer s p (e :: rest) =
      ((passPlayer s p rest).1, (passPlayer s p rest).2.1,
       e :: (passPlayer s p rest).2.2) := by
  simp only [passPlayer]
  rw [if_neg (by simp [ha]), if_neg h]

@[simp] theorem hitState_lives (s : GameState) (hit : Vec2 × Bool) :
    (hitState s hit).lives = s.lives := by
  unfold hitState
  split <;> rfl

@[simp] theorem hitState_gameOver (s : GameState) (hit : Vec2 × Bool) :
    (hitState s hit).gameOver = s.gameOver := by
  unfold hitState
  split <;> rfl

@[simp] theorem hitState_running (s : GameState) (hit : Vec2 × Bool) :
    (hitState s hit).running = s.running := by
  unfold hitState
  split <;> rfl

@[simp] theorem hitState_player (s : GameState) (hit : Vec2 × Bool) :
    (hitState s hit).player = s.player := by
  unfold hitState
  split <;> rfl

@[simp] theorem hitState_spawnTimer (s : GameState) (hit : Vec2 × Bool) :
    (hitState s hit).spawnTimer = s.spawnTimer := by
  unfold hitState
  split <;> rfl

@[simp] theorem hitState_time (s : GameState) (hit : Vec2 × Bool) :
    (hitState s hit).time = s.time := by
  unfold hitState
  split <;> rfl

theorem hitState_score (s : GameState) (hit : Vec2 × Bool) :
    (hitState s hit).score = s.score + if hit.2 then 100 else 0 := by
  unfold hitState
  split <;> simp

theorem passBullets_state (bs : List Bullet) :
    ∀ (es : List Enemy) (s : GameState),
      (passBullets bs es s).2.2.lives = s.lives ∧
      (passBullets bs es s).2.2.gameOver = s.gameOver ∧
      (passBullets bs es s).2.2.running = s.running ∧
      (passBullets bs es s).2.2.player = s.player ∧
      (passBullets bs es s).2.2.spawnTimer = s.spawnTimer ∧
      (passBullets bs es s).2.2.time = s.time ∧
      (passBullets bs es s).2.2.score = s.score + 100 * passKillCount bs es := by
  induction bs with
  | nil => intro es s; simp [passBullets, passKillCount]
  | cons b bs ih =>
    intro es s
    by_cases hb : b.fromPlayer
    · cases hscan : (bulletScan b es).2 with
      | some hit =>
        rw [passBullets_cons_hit b bs es s hit hb hscan]
        have h2 := ih (bulletScan b es).1 (hitState s hit)
        simp only [passKillCount, hb, if_true, hscan]
        refine ⟨?_, ?_, ?_, ?_, ?_, ?_, ?_⟩ <;>
          · simp [h2.1, h2.2.1, h2.2.2.1, h2.2.2.2.1, h2.2.2.2.2.1, h2.2.2.2.2.2.1,
              h2.2.2.2.2.2.2, hitState_score]
            try cases hit.2 <;> simp <;> ring
      | none =>
        rw [passBullets_cons_miss b bs es s hb hscan]
        have h2 := ih (bulletScan b es).1 s
        simp only [passKillCount, hb, if_true, hscan]
        exact h2
    · have hb' : b.fromPlayer = false := by simpa using hb
      have heq : passBullets (b :: bs) es s =
          (b :: (passBullets bs es s).1, (passBullets bs es s).2.1,
           (passBullets bs es s).2.2) := by
        simp only [passBullets]
        rw [if_neg (by simp [hb'])]
      rw [heq]
      have h2 := ih es s
      simp only [passKillCount, hb', Bool.false_eq_true, if_false]
      exact h2

theorem passPlayer_state (es : List Enemy) :
    ∀ (s : GameState) (p : Player),
      (passPlayer s p es).1.score = s.score ∧
      (passPlayer s p es).1.spawnTimer = s.spawnTimer ∧
      (passPlayer s p es).1.time = s.time ∧
      (passPlayer s p es).2.1.cooldown = p.cooldown := by
  induction es with
  | nil => intro s p; simp [passPlayer_nil]
  | cons e rest ih =>
    intro s p
    by_cases ha : p.alive
    · by_cases h : dist2 p.pos e.pos ≤ (p.radius + e.radius) * (p.radius + e.radius)
      · rw [passPlayer_hit s p e rest ha h]
        simp
      · rw [passPlayer_miss s p e rest ha h]
        exact ih s p
    · have ha' : p.alive = false := by simpa using ha
      have heq : passPlayer s p (e :: rest) = (s, p, e :: rest) := by
        simp only [passPlayer]
        rw [if_pos (by simp [ha'])]
      rw [heq]
      simp

theorem update_none (inp : Inputs) (dt : ℝ) (s : GameState) (h : s.player = none) :
    update inp dt s = { s with time := s.time + dt } := by
  unfold update
  rw [show ({ s with time := s.time + dt } : GameState).player = none from h]

theorem update_some (inp : Inputs) (dt : ℝ) (s : GameState) (p0 : Player)
    (h : s.player = some p0) :
    update inp dt s = updateBody inp dt { s with time := s.time + dt } p0 := by
  unfold update
  rw [show ({ s with time := s.time + dt } : GameState).player = some p0 from h]

theorem movePlayer_inBox (p : Player) (inp : Inputs) (dt : ℝ) :
    inBox (movePlayer p inp dt).pos := by
  unfold movePlayer inBox
  refine ⟨le_clamp _ _ _, clamp_le _ _ _ (by norm_num [INTERNAL_WIDTH]),
    le_clamp _ _ _, clamp_le _ _ _ (by norm_num [INTERNAL_HEIGHT])⟩

theorem movePlayer_inp0_zero (p : Player) (h : inBox p.pos) :
    movePlayer p inp0 0 = { p with vel := ⟨0, 0⟩ } := by
  obtain ⟨h1, h2, h3, h4⟩ := h
  unfold movePlayer
  ext <;> simp [inp0, vxOf, vyOf, clamp_eq_self, h1, h2, h3, h4]

theorem fireStep_cooldown (p : Player) (inp : Inputs) (dt : ℝ) (bs : List Bullet)
    (hf : inp.firing = true) :
    (fireStep p inp dt bs).1.cooldown =
      if p.cooldown - dt ≤ 0 then (0.08 : ℝ) else p.cooldown - dt := by
  simp only [fireStep, hf]
  split_ifs with h1 h2 h3 <;>
    first
      | rfl
      | exact absurd h1.2 h2
      | exact absurd ⟨trivial, h3⟩ h1

theorem fireStep_length (p : Player) (inp : Inputs) (dt : ℝ) (bs : List Bullet)
    (hf : inp.firing = true) :
    (fireStep p inp dt bs).2.length =
      bs.length + if p.cooldown - dt ≤ 0 then 1 else 0 := by
  simp only [fireStep, hf]
  split_ifs with h1 h2 h3
  · simp
  · exact absurd h1.2 h2
  · exact absurd ⟨trivial, h3⟩ h1
  · simp

theorem fireStep_length_le (p : Player) (inp : Inputs) (dt : ℝ) (bs : List Bullet) :
    (fireStep p inp dt bs).2.length ≤ bs.length + 1 := by
  simp only [fireStep]
  split
  · simp
  · simp

theorem passPlayer_inBox (es : List Enemy) :
    ∀ (s : GameState) (p : Player), inBox p.pos → inBox (passPlayer s p es).2.1.pos := by
  induction es with
  | nil =>
    intro s p h
    simpa [passPlayer_nil] using h
  | cons e rest ih =>
    intro s p h
    by_cases ha : p.alive
    · by_cases hd : dist2 p.pos e.pos ≤ (p.radius + e.radius) * (p.radius + e.radius)
      · rw [passPlayer_hit s p e rest ha hd]
        unfold hitPlayer
        split
        · exact h
        · show inBox ⟨INTERNAL_WIDTH / 2, INTERNAL_HEIGHT / 2⟩
          norm_num [inBox, INTERNAL_WIDTH, INTERNAL_HEIGHT]
      · rw [passPlayer_miss s p e rest ha hd]
        exact ih s p h
    · have heq : passPlayer s p (e :: rest) = (s, p, e :: rest) := by
        simp only [passPlayer]
        rw [if_pos (by simp [show p.alive = false by simpa using ha])]
      rw [heq]
      exact h

theorem shotsFired_le (ds : List ℝ) :
    ∀ c : ℝ, 0 ≤ c → c ≤ 0.08 → (∀ d ∈ ds, 0 ≤ d) →
      (0.08 : ℝ) * shotsFired c ds ≤ ds.sum - c + 0.08 := by
  induction ds with
  | nil =>
    intro c hc hc8 _
    simp only [shotsFired, List.sum_nil, Nat.cast_zero, mul_zero]
    linarith
  | cons d ds ih =>
    intro c hc hc8 hds
    have hd : 0 ≤ d := hds d (List.mem_cons_self _ _)
    have hds' : ∀ x ∈ ds, 0 ≤ x := fun x hx => hds x (List.mem_cons_of_mem _ hx)
    by_cases h : c - d ≤ 0
    · have hrec := ih 0.08 (by norm_num) (by norm_num) hds'
      simp only [shotsFired, h, if_true, List.sum_cons]
      push_cast
      linarith
    · have hcd : 0 ≤ c - d := le_of_lt (not_le.mp h)
      have hrec := ih (c - d) hcd (by linarith) hds'
      simp only [shotsFired, h, if_false, List.sum_cons]
      push_cast
      linarith

@[simp] theorem spawnStep_score (dt : ℝ) (s : GameState) :
    (spawnStep dt s).score = s.score := by
  simp only [spawnStep]
  split <;> rfl

@[simp] theorem spawnStep_lives (dt : ℝ) (s : GameState) :
    (spawnStep dt s).lives = s.lives := by
  simp only [spawnStep]
  split <;> rfl

@[simp] theorem spawnStep_player (dt : ℝ) (s : GameState) :
    (spawnStep dt s).player = s.player := by
  simp only [spawnStep]
  split <;> rfl

@[simp] theorem spawnStep_bullets (dt : ℝ) (s : GameState) :
    (spawnStep dt s).bullets = s.bullets := by
  simp only [spawnStep]
  split <;> rfl

@[simp] theorem spawnStep_gameOver (dt : ℝ) (s : GameState) :
    (spawnStep dt s).gameOver = s.gameOver := by
  simp only [spawnStep]
  split <;> rfl

@[simp] theorem spawnStep_running (dt : ℝ) (s : GameState) :
    (spawnStep dt s).running = s.running := by
  simp only [spawnStep]
  split <;> rfl

@[simp] theorem spawnStep_time (dt : ℝ) (s : GameState) :
    (spawnStep dt s).time = s.time := by
  simp only [spawnStep]
  split <;> rfl

theorem fireStep_pos (p : Player) (inp : Inputs) (dt : ℝ) (bs : List Bullet) :
    (fireStep p inp dt bs).1.pos = p.pos := by
  simp only [fireStep]
  split <;> rfl

theorem fireStep_alive (p : Player) (inp : Inputs) (dt : ℝ) (bs : List Bullet) :
    (fireStep p inp dt bs).1.alive = p.alive := by
  simp only [fireStep]
  split <;> rfl

theorem stepBullets_alive (dt : ℝ) (bs : List Bullet) :
    ∀ b ∈ stepBullets dt bs, b.alive = true := by
  intro b hb
  simp only [stepBullets, List.mem_filter] at hb
  exact hb.2

theorem stepEnemies_alive (p : Player) (score : ℤ) (dt : ℝ) (es : List Enemy) :
    ∀ e ∈ stepEnemies p score dt es, e.alive = true := by
  intro e he
  simp only [stepEnemies, List.mem_filter] at he
  exact he.2

theorem stepParticles_life (dt : ℝ) (ps : List Particle) :
    ∀ q ∈ stepParticles dt ps, 0 < q.life := by
  intro q hq
  simp only [stepParticles, List.mem_filter] at hq
  simpa using hq.2

theorem stepBullet_oob_y (dt : ℝ) (b : Bullet)
    (h : INTERNAL_HEIGHT + 10 < b.pos.y + b.vel.y * dt) :
    (stepBullet dt b).alive = false := by
  simp only [stepBullet]
  rw [if_pos (Or.inr (Or.inl h))]

theorem updateBody_inBox (inp : Inputs) (dt : ℝ) (s : GameState) (p0 : Player) :
    playerInBox (updateBody inp dt s p0).player := by
  simp only [updateBody]
  have h1 : inBox (fireStep (movePlayer p0 inp dt) inp dt s.bullets).1.pos := by
    rw [fireStep_pos]
    exact movePlayer_inBox p0 inp dt
  exact passPlayer_inBox _ _ _ h1

theorem update_score_mono (inp : Inputs) (dt : ℝ) (s : GameState) :
    s.score ≤ (update inp dt s).score := by
  cases hp : s.player with
  | none =>
    rw [update_none _ _ _ hp]
  | some p0 =>
    rw [update_some _ _ _ _ hp]
    simp only [updateBody]
    rw [(passPlayer_state _ _ _).1, (passBullets_state _ _ _).2.2.2.2.2.2]
    simp only [spawnStep_score]
    have : (0 : ℤ) ≤ 100 * passKillCount
        (stepBullets dt (fireStep (movePlayer p0 inp dt) inp dt s.bullets).2)
        (stepEnemies (fireStep (movePlayer p0 inp dt) inp dt s.bullets).1
          (spawnStep dt { s with
              time := s.time + dt
              player := some (fireStep (movePlayer p0 inp dt) inp dt s.bullets).1
              bullets := stepBullets dt (fireStep (movePlayer p0 inp dt) inp dt s.bullets).2 }).score
          dt
          (spawnStep dt { s with
              time := s.time + dt
              player := some (fireStep (movePlayer p0 inp dt) inp dt s.bullets).1
              bullets := stepBullets dt (fireStep (movePlayer p0 inp dt) inp dt s.bullets).2 }).enemies) := by
      positivity
    linarith

theorem update_spawnTimer_eq (inp : Inputs) (dt : ℝ) (s : GameState) (p0 : Player)
    (hp : s.player = some p0) (h : 0 < s.spawnTimer - dt) :
    (update inp dt s).spawnTimer = s.spawnTimer - dt := by
  rw [update_some _ _ _ _ hp]
  simp only [updateBody]
  rw [(passPlayer_state _ _ _).2.1, (passBullets_state _ _ _).2.2.2.2.1]
  rw [spawnStep_noSpawn _ _ (by exact h)]

/-! ### Claim theorems -/

/-- Claim C1: starting a session with `lives = 3`, each qualifying
player-hit event decrements lives by exactly 1; the first two hits leave
the session running (`gameOver = false`), keep the player alive and
reposition them to the fixed start position `(W/2, H/2)`; exactly the third
sequential hit, not earlier, sets `gameOver = true` and `running = false`
and marks the player not-alive; and a subsequent restart (`initGame`)
resets `score = 0`, `lives = 3` and empties every entity collection except
the freshly created player. -/
theorem C1_lives_gameOver_restart (s : GameState) (p : Player)
    (hl : s.lives = 3) (hg : s.gameOver = false) (hr : s.running = true)
    (ha : p.alive = true) :
    (∀ (s' : GameState) (p' : Player), (hitPlayer s' p').1.lives = s'.lives - 1) ∧
    ((hitPlayer s p).1.lives = 2 ∧
      (hitPlayer s p).1.gameOver = false ∧
      (hitPlayer s p).1.running = true ∧
      (hitPlayer s p).2.alive = true ∧
      (hitPlayer s p).2.pos = ⟨INTERNAL_WIDTH / 2, INTERNAL_HEIGHT / 2⟩) ∧
    ((hitPlayer (hitPlayer s p).1 (hitPlayer s p).2).1.lives = 1 ∧
      (hitPlayer (hitPlayer s p).1 (hitPlayer s p).2).1.gameOver = false ∧
      (hitPlayer (hitPlayer s p).1 (hitPlayer s p).2).1.running = true ∧
      (hitPlayer (hitPlayer s p).1 (hitPlayer s p).2).2.alive = true ∧
      (hitPlayer (hitPlayer s p).1 (hitPlayer s p).2).2.pos =
        ⟨INTERNAL_WIDTH / 2, INTERNAL_HEIGHT / 2⟩) ∧
    ((hitPlayer (hitPlayer (hitPlayer s p).1 (hitPlayer s p).2).1
        (hitPlayer (hitPlayer s p).1 (hitPlayer s p).2).2).1.lives = 0 ∧
      (hitPlayer (hitPlayer (hitPlayer s p).1 (hitPlayer s p).2).1
        (hitPlayer (hitPlayer s p).1 (hitPlayer s p).2).2).1.gameOver = true ∧
      (hitPlayer (hitPlayer (hitPlayer s p).1 (hitPlayer s p).2).1
        (hitPlayer (hitPlayer s p).1 (hitPlayer s p).2).2).1.running = false ∧
      (hitPlayer (hitPlayer (hitPlayer s p).1 (hitPlayer s p).2).1
        (hitPlayer (hitPlayer s p).1 (hitPlayer s p).2).2).2.alive = false) ∧
    (∀ s' : GameState,
      (initGame s').score = 0 ∧ (initGame s').lives = 3 ∧
      (initGame s').running = true ∧ (initGame s').gameOver = false ∧
      (initGame s').bullets = [] ∧ (initGame s').enemies = [] ∧
      (initGame s').particles = [] ∧ (initGame s').player = some initPlayer) := by
  have hl1 : (hitPlayer s p).1.lives = 2 := by
    rw [hitPlayer_fst_lives, hl]
    norm_num
  have hb1 := hitPlayer_survive_branch s p (by rw [hl]; norm_num)
  have hl2 : (hitPlayer (hitPlayer s p).1 (hitPlayer s p).2).1.lives = 1 := by
    rw [hitPlayer_fst_lives, hl1]
    norm_num
  have hb2 := hitPlayer_survive_branch (hitPlayer s p).1 (hitPlayer s p).2
    (by rw [hl1]; norm_num)
  have hl3 : (hitPlayer (hitPlayer (hitPlayer s p).1 (hitPlayer s p).2).1
      (hitPlayer (hitPlayer s p).1 (hitPlayer s p).2).2).1.lives = 0 := by
    rw [hitPlayer_fst_lives, hl2]
    norm_num
  have hb3 := hitPlayer_gameOver_branch (hitPlayer (hitPlayer s p).1 (hitPlayer s p).2).1
    (hitPlayer (hitPlayer s p).1 (hitPlayer s p).2).2 (by rw [hl2]; norm_num)
  refine ⟨fun s' p' => hitPlayer_fst_lives s' p',
    ⟨hl1, ?_, ?_, ?_, ?_⟩, ⟨hl2, ?_, ?_, ?_, ?_⟩, ⟨hl3, hb3.1, hb3.2.1, hb3.2.2.1⟩,
    fun s' => ⟨rfl, rfl, rfl, rfl, rfl, rfl, rfl, rfl⟩⟩
  · rw [hb1.1, hg]
  · rw [hb1.2.1, hr]
  · rw [hb1.2.2.1, ha]
  · exact hb1.2.2.2
  · rw [hb2.1, hb1.1, hg]
  · rw [hb2.2.1, hb1.2.1, hr]
  · rw [hb2.2.2.1, hb1.2.2.1, ha]
  · exact hb2.2.2.2

/-- Claim C1 witness: the three-hit chain evaluated from a concrete running
state with 3 lives. -/
theorem C1_witness :
    (hitPlayer (baseState [] []) (playerAt 240 360)).1.lives = 2 ∧
    (hitPlayer (baseState [] []) (playerAt 240 360)).1.gameOver = false ∧
    (hitPlayer (hitPlayer (hitPlayer (baseState [] []) (playerAt 240 360)).1
        (hitPlayer (baseState [] []) (playerAt 240 360)).2).1
      (hitPlayer (hitPlayer (baseState [] []) (playerAt 240 360)).1
        (hitPlayer (baseState [] []) (playerAt 240 360)).2).2).1.gameOver = true ∧
    (initGame (baseState [] [])).score = 0 := by
  have h := C1_lives_gameOver_restart (baseState [] []) (playerAt 240 360) rfl rfl rfl rfl
  exact ⟨h.2.1.1, h.2.1.2.1, h.2.2.2.1.2.1, (h.2.2.2.2 (baseState [] [])).1⟩

/-- Claim C2: the bullet-vs-enemy hit test is squared distance ≤ (sum of
radii)², boundary-inclusive (true at exactly the sum of radii, false at any
greater distance); on a qualifying hit the bullet is consumed (marked
not-alive), the enemy's hp drops by 1, an hp-1 enemy is marked dead with
score +100 while an hp-2 enemy survives with hp 1 and dies on a second
qualifying hit; and a bullet damages at most one enemy (the scan stops at
the first overlapping enemy, leaving all later enemies untouched). -/
theorem C2_bullet_enemy_resolution (b : Bullet) (e : Enemy) (s : GameState)
    (hb : b.fromPlayer = true) (hr : 0 ≤ b.radius + e.radius) :
    (Real.sqrt (dist2 b.pos e.pos) = b.radius + e.radius →
      dist2 b.pos e.pos ≤ (b.radius + e.radius) * (b.radius + e.radius)) ∧
    (b.radius + e.radius < Real.sqrt (dist2 b.pos e.pos) →
      ¬ dist2 b.pos e.pos ≤ (b.radius + e.radius) * (b.radius + e.radius)) ∧
    (dist2 b.pos e.pos ≤ (b.radius + e.radius) * (b.radius + e.radius) →
      (passBullets [b] [e] s).1 = [{ b with alive := false }] ∧
      (passBullets [b] [e] s).2.1 =
        (if e.hp - 1 ≤ 0 then [{ e with hp := e.hp - 1, alive := false }]
         else [{ e with hp := e.hp - 1 }]) ∧
      (passBullets [b] [e] s).2.2.score =
        (if e.hp - 1 ≤ 0 then s.score + 100 else s.score)) ∧
    (¬ dist2 b.pos e.pos ≤ (b.radius + e.radius) * (b.radius + e.radius) →
      passBullets [b] [e] s = ([b], [e], s)) ∧
    (∀ (e2 : Enemy) (rest : List Enemy),
      dist2 b.pos e.pos ≤ (b.radius + e.radius) * (b.radius + e.radius) →
      (passBullets [b] (e :: e2 :: rest) s).2.1 =
        (if e.hp - 1 ≤ 0 then { e with hp := e.hp - 1, alive := false } :: e2 :: rest
         else { e with hp := e.hp - 1 } :: e2 :: rest)) ∧
    (e.hp = 2 →
      dist2 b.pos e.pos ≤ (b.radius + e.radius) * (b.radius + e.radius) →
      (passBullets [b] [e] s).2.1 = [{ e with hp := 1 }] ∧
      (passBullets [b] [e] s).2.2.score = s.score ∧
      (∀ (b2 : Bullet) (s2 : GameState), b2.fromPlayer = true →
        dist2 b2.pos e.pos ≤ (b2.radius + e.radius) * (b2.radius + e.radius) →
        (passBullets [b2] [{ e with hp := 1 }] s2).2.1 =
          [{ e with hp := 0, alive := false }] ∧
        (passBullets [b2] [{ e with hp := 1 }] s2).2.2.score = s2.score + 100)) := by
  have hd0 : 0 ≤ dist2 b.pos e.pos :=
    add_nonneg (mul_self_nonneg _) (mul_self_nonneg _)
  refine ⟨?_, ?_, ?_, ?_, ?_, ?_⟩
  · intro heq
    rw [show dist2 b.pos e.pos = Real.sqrt (dist2 b.pos e.pos) * Real.sqrt (dist2 b.pos e.pos)
      from (Real.mul_self_sqrt hd0).symm, heq]
  · intro hlt
    rw [not_le]
    calc (b.radius + e.radius) * (b.radius + e.radius)
        < Real.sqrt (dist2 b.pos e.pos) * Real.sqrt (dist2 b.pos e.pos) :=
          mul_self_lt_mul_self hr hlt
      _ = dist2 b.pos e.pos := Real.mul_self_sqrt hd0
  · intro hhit
    by_cases hhp : e.hp - 1 ≤ 0
    · have hscan := bulletScan_kill b e [] hhit hhp
      refine ⟨?_, ?_, ?_⟩ <;>
        simp [passBullets, hb, hscan, hitState_score, hhp]
    · have hscan := bulletScan_wound b e [] hhit hhp
      refine ⟨?_, ?_, ?_⟩ <;>
        simp [passBullets, hb, hscan, hitState_score, hhp]
  · intro hmiss
    simp [passBullets, hb, bulletScan, hmiss]
  · intro e2 rest hhit
    by_cases hhp : e.hp - 1 ≤ 0
    · have hscan := bulletScan_kill b e (e2 :: rest) hhit hhp
      simp [passBullets, hb, hscan, hhp]
    · have hscan := bulletScan_wound b e (e2 :: rest) hhit hhp
      simp [passBullets, hb, hscan, hhp]
  · intro hhp2 hhit
    have hne : ¬ e.hp - 1 ≤ 0 := by omega
    have hscan := bulletScan_wound b e [] hhit hne
    have hsurv : ({ e with hp := e.hp - 1 } : Enemy) = { e with hp := 1 } := by
      norm_num [hhp2]
    refine ⟨?_, ?_, ?_⟩
    · simp [passBullets, hb, hscan, hsurv]
    · simp [passBullets, hb, hscan, hitState_score]
    · intro b2 s2 hb2 hhit2
      have hhit2' : dist2 b2.pos ({ e with hp := (1:ℤ) } : Enemy).pos ≤
          (b2.radius + ({ e with hp := (1:ℤ) } : Enemy).radius) *
          (b2.radius + ({ e with hp := (1:ℤ) } : Enemy).radius) := hhit2
      have hscan2 := bulletScan_kill b2 { e with hp := (1:ℤ) } [] hhit2' (by norm_num)
      constructor
      · simp only [passBullets, hb2, if_true, hscan2]
        norm_num
      · simp [passBullets, hb2, hscan2, hitState_score]

/-- Claim C2 witness: a bullet and an enemy whose centres are exactly the
sum of the radii (16) apart do collide (boundary-inclusive); the bullet is
consumed and the hp-1 enemy dies with score +100. -/
theorem C2_witness :
    dist2 (bulletAt 0 0).pos (enemyAt 16 0 1).pos ≤
      ((bulletAt 0 0).radius + (enemyAt 16 0 1).radius) *
      ((bulletAt 0 0).radius + (enemyAt 16 0 1).radius) ∧
    (passBullets [bulletAt 0 0] [enemyAt 16 0 1] (baseState [] [])).1 =
      [{ bulletAt 0 0 with alive := false }] ∧
    (passBullets [bulletAt 0 0] [enemyAt 16 0 1] (baseState [] [])).2.1 =
      [{ enemyAt 16 0 1 with hp := 0, alive := false }] ∧
    (passBullets [bulletAt 0 0] [enemyAt 16 0 1] (baseState [] [])).2.2.score = 100 := by
  have h := C2_bullet_enemy_resolution (bulletAt 0 0) (enemyAt 16 0 1)
    (baseState [] []) rfl (by norm_num [bulletAt, enemyAt])
  have hbd : Real.sqrt (dist2 (bulletAt 0 0).pos (enemyAt 16 0 1).pos) =
      (bulletAt 0 0).radius + (enemyAt 16 0 1).radius := by
    have : dist2 (bulletAt 0 0).pos (enemyAt 16 0 1).pos = 16 ^ 2 := by
      norm_num [dist2, bulletAt, enemyAt]
    rw [this, Real.sqrt_sq (by norm_num : (0:ℝ) ≤ 16)]
    norm_num [bulletAt, enemyAt]
  have hhit := h.1 hbd
  have hres := h.2.2.1 hhit
  refine ⟨hhit, hres.1, ?_, ?_⟩
  · rw [hres.2.1]
    norm_num [enemyAt]
  · rw [hres.2.2]
    norm_num [enemyAt, baseState]

/-- Claim C3 counterexample: a single tick with two bullets overlapping one
alive hp-1 enemy yields a score delta of 200 although exactly one enemy is
killed in that tick — the bullet-vs-enemy pass re-damages the enemy it has
already marked dead, so the per-tick score delta is not 100 times the
number of enemies killed. -/
theorem C3_counterexample :
    (update inp0 0 (baseState [bulletAt 100 100, bulletAt 100 100]
        [enemyAt 100 100 1])).score = 200 ∧
    (baseState [bulletAt 100 100, bulletAt 100 100] [enemyAt 100 100 1]).score = 0 ∧
    ((update inp0 0 (baseState [bulletAt 100 100, bulletAt 100 100]
        [enemyAt 100 100 1])).enemies.countP fun e => !e.alive) = 1 ∧
    ((baseState [bulletAt 100 100, bulletAt 100 100] [enemyAt 100 100 1]).enemies.countP
        fun e => e.alive) = 1 := by
  refine ⟨?_, rfl, ?_, rfl⟩ <;>
    · rw [update_some _ _ _ (playerAt 240 360) rfl]
      norm_num [updateBody, movePlayer, fireStep, stepBullets, stepBullet, spawnStep,
        stepEnemies, stepEnemy, passBullets, bulletScan, passPlayer, hitPlayer, hitState,
        emitExplosion, inp0, playerAt, bulletAt, enemyAt, baseState, jsOr1, hypot, clamp,
        dist2, INTERNAL_WIDTH, INTERNAL_HEIGHT]

/-- Claim C3 (amended): the bullet-vs-enemy pass scans the enemy collection
(alive at the start of the pass, since it was filtered in the enemy phase)
but never re-checks the alive flag mid-pass; the score delta of the pass
equals 100 times the number of hit events whose post-hit hp is ≤ 0
(`passKillCount`) — which can exceed the number of enemies killed when
several bullets overlap the same enemy — and the score is monotonically
non-decreasing over every tick. -/
theorem C3_score_per_kill_event (bs : List Bullet) (es : List Enemy) (s : GameState)
    (inp : Inputs) (dt : ℝ) (s2 : GameState) :
    (passBullets bs es s).2.2.score = s.score + 100 * passKillCount bs es ∧
    s2.score ≤ (update inp dt s2).score :=
  ⟨(passBullets_state bs es s).2.2.2.2.2.2, update_score_mono inp dt s2⟩

/-- Claim C4: for every movement input and every `dt`, the player position
after a full simulation step lies within `[15, W-15] × [15, H-15]`; the
clamped movement always lands in the box, and the player-hit procedure
preserves it (repositioning to the centre or leaving the position
unchanged). -/
theorem C4_player_clamped (inp : Inputs) (dt : ℝ) (s : GameState) (p : Player)
    (sAny : GameState) :
    playerInBox (update inp dt s).player ∧
    inBox (movePlayer p inp dt).pos ∧
    (inBox p.pos → inBox (hitPlayer sAny p).2.pos) := by
  refine ⟨?_, movePlayer_inBox p inp dt, ?_⟩
  · cases hp : s.player with
    | none =>
      rw [update_none _ _ _ hp]
      show playerInBox s.player
      rw [hp]
      trivial
    | some p0 =>
      rw [update_some _ _ _ _ hp]
      exact updateBody_inBox inp dt _ p0
  · intro h
    unfold hitPlayer
    split
    · exact h
    · show inBox ⟨INTERNAL_WIDTH / 2, INTERNAL_HEIGHT / 2⟩
      norm_num [inBox, INTERNAL_WIDTH, INTERNAL_HEIGHT]

/-- Claim C4 witness: the box membership evaluated at a concrete state and
a concrete player. -/
theorem C4_witness :
    playerInBox (update inp0 0 (baseState [] [])).player ∧
    inBox (hitPlayer (baseState [] []) (playerAt 240 360)).2.pos := by
  have h := C4_player_clamped inp0 0 (baseState [] []) (playerAt 240 360) (baseState [] [])
  exact ⟨h.1, h.2.2 (by norm_num [inBox, playerAt, INTERNAL_WIDTH, INTERNAL_HEIGHT])⟩

/-- Claim C5: with the fire signal held, a tick spawns a bullet exactly
when the cooldown decremented by `dt` is ≤ 0, after which the cooldown
resets to the fixed interval 0.08; at most one bullet is spawned per tick
for any input; and over any tick sequence with nonnegative deltas summing
to `T`, starting from a cooldown in `[0, 0.08]` (as after `initGame`), the
number of bullets spawned is at most `⌊T / 0.08⌋ + 1`. -/
theorem C5_fire_rate_cap (p : Player) (inp : Inputs) (dt : ℝ) (bs : List Bullet)
    (hf : inp.firing = true) (ds : List ℝ) (c : ℝ) (hc0 : 0 ≤ c) (hc8 : c ≤ 0.08)
    (hds : ∀ d ∈ ds, 0 ≤ d) :
    ((fireStep p inp dt bs).1.cooldown =
      if p.cooldown - dt ≤ 0 then (0.08 : ℝ) else p.cooldown - dt) ∧
    ((fireStep p inp dt bs).2.length =
      bs.length + if p.cooldown - dt ≤ 0 then 1 else 0) ∧
    (∀ inp2 : Inputs, (fireStep p inp2 dt bs).2.length ≤ bs.length + 1) ∧
    ((shotsFired c ds : ℤ) ≤ ⌊ds.sum / 0.08⌋ + 1) := by
  refine ⟨fireStep_cooldown p inp dt bs hf, fireStep_length p inp dt bs hf,
    fun inp2 => fireStep_length_le p inp2 dt bs, ?_⟩
  have h := shotsFired_le ds c hc0 hc8 hds
  have h2 : ((shotsFired c ds : ℤ) - 1 : ℤ) ≤ ⌊ds.sum / (0.08 : ℝ)⌋ := by
    rw [Int.le_floor]
    push_cast
    rw [le_div_iff₀ (by norm_num : (0:ℝ) < 0.08)]
    linarith
  omega

/-- Claim C5 witness: one tick of held fire from a zero cooldown spawns a
bullet and resets the cooldown; the two-tick trace `[0.01, 0.05]` fires
once, within the bound `⌊0.06 / 0.08⌋ + 1 = 1`. -/
theorem C5_witness :
    (fireStep (playerAt 240 360) { inp0 with firing := true } 0.01 []).1.cooldown =
      (0.08 : ℝ) ∧
    (fireStep (playerAt 240 360) { inp0 with firing := true } 0.01 []).2.length = 1 ∧
    ((shotsFired 0 [0.01, 0.05] : ℤ) ≤ ⌊(([0.01, 0.05] : List ℝ).sum / 0.08 : ℝ)⌋ + 1) := by
  have h := C5_fire_rate_cap (playerAt 240 360) { inp0 with firing := true } 0.01 []
    rfl [0.01, 0.05] 0 le_rfl (by norm_num)
    (by
      intro d hd
      simp only [List.mem_cons, List.not_mem_nil, or_false] at hd
      rcases hd with h1 | h1 <;> rw [h1] <;> norm_num)
  refine ⟨?_, ?_, h.2.2.2⟩
  · rw [h.1]
    norm_num [playerAt]
  · rw [h.2.1]
    norm_num [playerAt]

/-- Claim C6: when the spawn timer, decremented by `dt`, reaches ≤ 0 in a
tick, a wave is appended and the timer resets to
`max(0.8, 2.0 - score * 0.001)`; otherwise only the timer drops; the reset
value never goes below the floor 0.8 and is non-increasing as the score
grows. -/
theorem C6_spawn_cadence (dt : ℝ) (s : GameState) (sc1 sc2 : ℤ) (hsc : sc1 ≤ sc2) :
    (s.spawnTimer - dt ≤ 0 →
      (spawnStep dt s).spawnTimer = spawnResetInterval s.score ∧
      (spawnStep dt s).enemies = s.enemies ++ waveEnemies s) ∧
    (0 < s.spawnTimer - dt →
      (spawnStep dt s).spawnTimer = s.spawnTimer - dt ∧
      (spawnStep dt s).enemies = s.enemies) ∧
    (0.8 ≤ spawnResetInterval s.score) ∧
    spawnResetInterval sc2 ≤ spawnResetInterval sc1 := by
  refine ⟨?_, ?_, le_max_left _ _, ?_⟩
  · intro h
    simp only [spawnStep]
    rw [if_pos h]
    exact ⟨rfl, rfl⟩
  · intro h
    rw [spawnStep_noSpawn dt s h]
    exact ⟨rfl, rfl⟩
  · unfold spawnResetInterval
    refine max_le_max le_rfl ?_
    have : (sc1 : ℝ) * 0.001 ≤ (sc2 : ℝ) * 0.001 :=
      mul_le_mul_of_nonneg_right (by exact_mod_cast hsc) (by norm_num)
    linarith

/-- Claim C6 witness: from timer 1, a tick with `dt = 1.5` triggers a wave
and resets the timer to the score-dependent interval, while `dt = 0.5` only
decrements the timer; the reset interval is at least 0.8 and is
non-increasing from score 0 to score 500. -/
theorem C6_witness :
    (spawnStep 1.5 (baseState [] [])).spawnTimer =
      spawnResetInterval (baseState [] []).score ∧
    (spawnStep 1.5 (baseState [] [])).enemies =
      (baseState [] []).enemies ++ waveEnemies (baseState [] []) ∧
    (spawnStep 0.5 (baseState [] [])).spawnTimer = (baseState [] []).spawnTimer - 0.5 ∧
    (0.8 : ℝ) ≤ spawnResetInterval (baseState [] []).score ∧
    spawnResetInterval 500 ≤ spawnResetInterval 0 := by
  have h1 := C6_spawn_cadence 1.5 (baseState [] []) 0 500 (by norm_num)
  have h2 := C6_spawn_cadence 0.5 (baseState [] []) 0 500 (by norm_num)
  have htrig := h1.1 (by norm_num [baseState])
  exact ⟨htrig.1, htrig.2, (h2.2.1 (by norm_num [baseState])).1, h1.2.2.1, h1.2.2.2⟩

/-- Claim C7 counterexample: a tick in which a bullet kills an enemy ends
with the consumed bullet and the dead enemy still in their collections
(they are only filtered out during the next tick), so dead entities are
present at the start of the next tick. -/
theorem C7_counterexample :
    ((update inp0 0 (baseState [bulletAt 100 100] [enemyAt 100 100 1])).bullets.any
        fun b => !b.alive) = true ∧
    ((update inp0 0 (baseState [bulletAt 100 100] [enemyAt 100 100 1])).enemies.any
        fun e => !e.alive) = true := by
  constructor <;>
    · rw [update_some _ _ _ (playerAt 240 360) rfl]
      norm_num [updateBody, movePlayer, fireStep, stepBullets, stepBullet, spawnStep,
        stepEnemies, stepEnemy, passBullets, bulletScan, passPlayer, hitPlayer, hitState,
        emitExplosion, inp0, playerAt, bulletAt, enemyAt, baseState, jsOr1, hypot, clamp,
        dist2, INTERNAL_WIDTH, INTERNAL_HEIGHT]

/-- Claim C7 (amended): entities marked dead by the collision passes stay
in their collections until the NEXT tick's integration phases remove them,
before that tick's collision passes run: the bullet and enemy collections
entering the passes contain only alive entities; particles with
lifetime ≤ 0 are removed by the end of the same tick; and a bullet that
left the playfield beyond the 10-unit margin is marked not-alive and is
dropped from the live collection within that same tick. -/
theorem C7_dead_entity_culling (dt : ℝ) (bs : List Bullet) (es : List Enemy)
    (ps : List Particle) (p : Player) (score : ℤ) (inp : Inputs) (s : GameState)
    (p0 : Player) (b : Bullet) (hp0 : s.player = some p0)
    (hoob : INTERNAL_HEIGHT + 10 < b.pos.y + b.vel.y * dt) :
    (∀ b2 ∈ stepBullets dt bs, b2.alive = true) ∧
    (∀ e ∈ stepEnemies p score dt es, e.alive = true) ∧
    (∀ q ∈ stepParticles dt ps, 0 < q.life) ∧
    (∀ q ∈ (update inp dt s).particles, 0 < q.life) ∧
    (stepBullet dt b).alive = false ∧
    stepBullet dt b ∉ stepBullets dt [b] := by
  refine ⟨stepBullets_alive dt bs, stepEnemies_alive p score dt es,
    stepParticles_life dt ps, ?_, stepBullet_oob_y dt b hoob, ?_⟩
  · rw [update_some _ _ _ _ hp0]
    simp only [updateBody]
    intro q hq
    exact stepParticles_life _ _ q hq
  · intro hmem
    have := stepBullets_alive dt [b] _ hmem
    rw [stepBullet_oob_y dt b hoob] at this
    exact Bool.false_ne_true this

/-- Claim C7 witness: a bullet already at y = 800 (beyond 730) is marked
not-alive and filtered out in the same tick; the particles surviving a tick
all have positive lifetime. -/
theorem C7_witness :
    (stepBullet 0 (bulletAt 0 800)).alive = false ∧
    stepBullet 0 (bulletAt 0 800) ∉ stepBullets 0 [bulletAt 0 800] ∧
    (∀ q ∈ (update inp0 0 (baseState [] [])).particles, 0 < q.life) := by
  have h := C7_dead_entity_culling 0 [] [] [] (playerAt 240 360) 0 inp0 (baseState [] [])
    (playerAt 240 360) (bulletAt 0 800) rfl
    (by norm_num [bulletAt, INTERNAL_HEIGHT])
  exact ⟨h.2.2.2.2.1, h.2.2.2.2.2, h.2.2.2.1⟩

/-- Claim C8 counterexample: the frame loop computes
`dt = min(0.033, (t - last)/1000)` with no lower clamp, so a negative `dt`
is produced (here -1) and propagates into the state: the spawn timer moves
from 1 to 2 instead of staying unchanged. -/
theorem C8_counterexample :
    loopDt 0 1000 = -1 ∧
    (update inp0 (-1) (baseState [] [])).spawnTimer = 2 ∧
    (baseState [] []).spawnTimer = 1 := by
  refine ⟨?_, ?_, rfl⟩
  · unfold loopDt
    norm_num
  · rw [update_spawnTimer_eq inp0 (-1) _ (playerAt 240 360) rfl (by norm_num [baseState])]
    norm_num [baseState]

/-- Claim C8 (amended): the loop clamps `dt` from above at 0.033 only; a
negative `dt` is not treated as zero but propagates into the simulation
step, moving the spawn timer (and the clock) by `-dt`. -/
theorem C8_negative_dt_propagates (t last : ℝ) (inp : Inputs) (dt : ℝ) (s : GameState)
    (p0 : Player) (hp : s.player = some p0) (h : 0 < s.spawnTimer - dt) :
    loopDt t last ≤ 0.033 ∧
    (update inp dt s).spawnTimer = s.spawnTimer - dt ∧
    (update inp dt s).time = s.time + dt := by
  refine ⟨min_le_left _ _, update_spawnTimer_eq inp dt s p0 hp h, ?_⟩
  rw [update_some _ _ _ _ hp]
  simp only [updateBody]
  rw [(passPlayer_state _ _ _).2.2.1, (passBullets_state _ _ _).2.2.2.2.2.1, spawnStep_time]

/-- Claim C8 witness: at `dt = -1` from spawn timer 1, the spawn timer
becomes 2 and the clock moves backwards. -/
theorem C8_witness :
    loopDt 0 1000 ≤ 0.033 ∧
    (update inp0 (-1) (baseState [] [])).spawnTimer =
      (baseState [] []).spawnTimer - (-1) ∧
    (update inp0 (-1) (baseState [] [])).time = (baseState [] []).time + (-1) := by
  have h := C8_negative_dt_propagates 0 1000 inp0 (-1) (baseState [] [])
    (playerAt 240 360) rfl (by norm_num [baseState])
  exact ⟨h.1, h.2.1, h.2.2⟩

/-- Claim C9: whenever the clamp does not bind, a step with diagonal intent
(1,1) displaces the player by the same distance magnitude as a step with
axial intent (1,0) over the same `dt`: the intent vector is normalised by
`Math.hypot(...) || 1` before scaling by `speed * dt`, so both squared
displacements equal `(speed * dt)²`. -/
theorem C9_diagonal_not_faster (p : Player) (dt : ℝ)
    (h1 : 15 ≤ p.pos.x + 1 / Real.sqrt 2 * (p.speed * dt))
    (h2 : p.pos.x + 1 / Real.sqrt 2 * (p.speed * dt) ≤ INTERNAL_WIDTH - 15)
    (h3 : 15 ≤ p.pos.y + 1 / Real.sqrt 2 * (p.speed * dt))
    (h4 : p.pos.y + 1 / Real.sqrt 2 * (p.speed * dt) ≤ INTERNAL_HEIGHT - 15)
    (h5 : 15 ≤ p.pos.x + p.speed * dt)
    (h6 : p.pos.x + p.speed * dt ≤ INTERNAL_WIDTH - 15)
    (h7 : 15 ≤ p.pos.y) (h8 : p.pos.y ≤ INTERNAL_HEIGHT - 15) :
    dist2 (movePlayer p inpDiag dt).pos p.pos = (p.speed * dt) * (p.speed * dt) ∧
    dist2 (movePlayer p inpAxial dt).pos p.pos = (p.speed * dt) * (p.speed * dt) := by
  have hs2pos : (0:ℝ) < Real.sqrt 2 := Real.sqrt_pos.mpr (by norm_num)
  have hvdx : vxOf inpDiag = 1 := by norm_num [vxOf, inpDiag]
  have hvdy : vyOf inpDiag = 1 := by norm_num [vyOf, inpDiag]
  have hvax : vxOf inpAxial = 1 := by norm_num [vxOf, inpAxial]
  have hvay : vyOf inpAxial = 0 := by norm_num [vyOf, inpAxial]
  have hh2 : hypot 1 1 = Real.sqrt 2 := by
    unfold hypot
    norm_num
  have hh1 : hypot 1 0 = 1 := by
    unfold hypot
    norm_num
  have hs2 : jsOr1 (hypot 1 1) = Real.sqrt 2 := by
    rw [hh2]
    unfold jsOr1
    rw [if_neg hs2pos.ne']
  have hA : jsOr1 (hypot 1 0) = 1 := by
    rw [hh1]
    unfold jsOr1
    rw [if_neg one_ne_zero]
  have hdx : (movePlayer p inpDiag dt).pos.x = p.pos.x + 1 / Real.sqrt 2 * (p.speed * dt) := by
    have e0 : (movePlayer p inpDiag dt).pos.x =
        clamp (p.pos.x + vxOf inpDiag / jsOr1 (hypot (vxOf inpDiag) (vyOf inpDiag)) *
          p.speed * dt) 15 (INTERNAL_WIDTH - 15) := rfl
    rw [e0, hvdx, hvdy, hs2,
      show p.pos.x + 1 / Real.sqrt 2 * p.speed * dt =
        p.pos.x + 1 / Real.sqrt 2 * (p.speed * dt) by ring]
    exact clamp_eq_self _ _ _ h1 h2
  have hdy : (movePlayer p inpDiag dt).pos.y = p.pos.y + 1 / Real.sqrt 2 * (p.speed * dt) := by
    have e0 : (movePlayer p inpDiag dt).pos.y =
        clamp (p.pos.y + vyOf inpDiag / jsOr1 (hypot (vxOf inpDiag) (vyOf inpDiag)) *
          p.speed * dt) 15 (INTERNAL_HEIGHT - 15) := rfl
    rw [e0, hvdx, hvdy, hs2,
      show p.pos.y + 1 / Real.sqrt 2 * p.speed * dt =
        p.pos.y + 1 / Real.sqrt 2 * (p.speed * dt) by ring]
    exact clamp_eq_self _ _ _ h3 h4
  have hax : (movePlayer p inpAxial dt).pos.x = p.pos.x + p.speed * dt := by
    have e0 : (movePlayer p inpAxial dt).pos.x =
        clamp (p.pos.x + vxOf inpAxial / jsOr1 (hypot (vxOf inpAxial) (vyOf inpAxial)) *
          p.speed * dt) 15 (INTERNAL_WIDTH - 15) := rfl
    rw [e0, hvax, hvay, hA,
      show p.pos.x + 1 / 1 * p.speed * dt = p.pos.x + p.speed * dt by ring]
    exact clamp_eq_self _ _ _ h5 h6
  have hay : (movePlayer p inpAxial dt).pos.y = p.pos.y := by
    have e0 : (movePlayer p inpAxial dt).pos.y =
        clamp (p.pos.y + vyOf inpAxial / jsOr1 (hypot (vxOf inpAxial) (vyOf inpAxial)) *
          p.speed * dt) 15 (INTERNAL_HEIGHT - 15) := rfl
    rw [e0, hvax, hvay, hA,
      show p.pos.y + 0 / 1 * p.speed * dt = p.pos.y by ring]
    exact clamp_eq_self _ _ _ h7 h8
  constructor
  · unfold dist2
    rw [hdx, hdy]
    rw [show p.pos.x + 1 / Real.sqrt 2 * (p.speed * dt) - p.pos.x =
        1 / Real.sqrt 2 * (p.speed * dt) by ring,
      show p.pos.y + 1 / Real.sqrt 2 * (p.speed * dt) - p.pos.y =
        1 / Real.sqrt 2 * (p.speed * dt) by ring]
    field_simp
  · unfold dist2
    rw [hax, hay]
    ring

/-- Claim C9 witness: the displacement equality instantiated at the start
position with `dt = 0`. -/
theorem C9_witness :
    dist2 (movePlayer (playerAt 240 360) inpDiag 0).pos (playerAt 240 360).pos =
      ((playerAt 240 360).speed * 0) * ((playerAt 240 360).speed * 0) ∧
    dist2 (movePlayer (playerAt 240 360) inpAxial 0).pos (playerAt 240 360).pos =
      ((playerAt 240 360).speed * 0) * ((playerAt 240 360).speed * 0) := by
  have h := C9_diagonal_not_faster (playerAt 240 360) 0
    (by norm_num [playerAt]) (by norm_num [playerAt, INTERNAL_WIDTH])
    (by norm_num [playerAt]) (by norm_num [playerAt, INTERNAL_HEIGHT])
    (by norm_num [playerAt]) (by norm_num [playerAt, INTERNAL_WIDTH])
    (by norm_num [playerAt]) (by norm_num [playerAt, INTERNAL_HEIGHT])
  exact h

/-- Claim C10: the enemy-vs-player pass iterates the enemy collection
without checking the alive flag: in this single tick the only enemy is
first killed by a bullet (score +100, enemy marked dead) and the same,
already dead, enemy still overlaps the player and triggers the player-hit
procedure, consuming a life (3 → 2). -/
theorem C10_dead_enemy_hits_player :
    (update inp0 0 (baseState [bulletAt 240 380] [enemyAt 240 380 1])).score = 100 ∧
    (update inp0 0 (baseState [bulletAt 240 380] [enemyAt 240 380 1])).lives = 2 ∧
    ((update inp0 0 (baseState [bulletAt 240 380] [enemyAt 240 380 1])).enemies.all
        fun e => !e.alive) = true ∧
    (baseState [bulletAt 240 380] [enemyAt 240 380 1]).enemies.length = 1 := by
  refine ⟨?_, ?_, ?_, rfl⟩ <;>
    · rw [update_some _ _ _ (playerAt 240 360) rfl]
      norm_num [updateBody, movePlayer, fireStep, stepBullets, stepBullet, spawnStep,
        stepEnemies, stepEnemy, passBullets, bulletScan, passPlayer, hitPlayer, hitState,
        emitExplosion, inp0, playerAt, bulletAt, enemyAt, baseState, jsOr1, hypot, clamp,
        dist2, INTERNAL_WIDTH, INTERNAL_HEIGHT]

end

end Phobia
